import Mathlib

/-!
# Verification of the `ark-plonk` proof-system core

Shallow embedding of `src/proof_system/quotient_poly.rs` and
`src/proof_system/verifier.rs` of the `ark-plonk` repository, together with
theorems settling the specification claims about them.

Modelling conventions:
* Field elements are an abstract Lean field `F` (with decidable equality so
  that the Rust zero test inside `invert` is expressible).
* A Rust `Polynomial<F>` is its coefficient list `List F`
  (low-degree-first); `Polynomial::from_coefficients_vec` is the identity on
  that list.
* `EvaluationDomain` is external to the repository (ark-poly); it is
  modelled at its interface boundary as a structure of transform functions,
  and the fallible constructor `EvaluationDomain::new` is passed in as a
  function `new : ℕ → Except Error (EvaluationDomain F)`.
* The per-gate widgets (`prover_key.arithmetic.compute_quotient_i`, …) live
  outside the two embedded files, so `ProverKey` carries them as opaque
  function fields with exactly the arities used at the call sites.
* Rust `Vec` indexing `v[i]` is modelled by `List.getD v i 0`; the claims
  about in-bounds access show the default is never consulted in the
  relevant regime.
* A Rust function returning `Result<T, Error>` but able to `unwrap()` is
  modelled with the three-valued `Outcome`: `ok`, `err` (a returned
  `Error`), and `panicked` (an `unwrap` of `None`/`Err`, i.e. a crash, kept
  distinct from a returned error).
-/

set_option linter.unusedSectionVars false

namespace ArkPlonk

/-- The error kinds of the crate's `Error` enum that this core can surface
(§7 of the specification). -/
inductive Error where
  | InvalidDomainSize
  | ZeroInversion
  | VerifierNotPreprocessed
  | ProofVerificationFailed
  deriving DecidableEq, Repr

/-- Result of running a Rust function that may return `Ok`, return `Err`,
or crash on an `unwrap`.  A panic is not a returned error: callers cannot
observe it as a value, so it is kept as a separate constructor. -/
inductive Outcome (α : Type) where
  | ok (a : α)
  | err (e : Error)
  | panicked
  deriving DecidableEq, Repr

/-- Interface-boundary model of ark-poly's `EvaluationDomain`: a size and
the four transforms the embedded code calls (`ifft_in_place`, `coset_fft`,
`coset_ifft`, plus the plain forward transform used to state what
"evaluating on the domain" means). -/
structure EvaluationDomain (F : Type) where
  size : ℕ
  fft : List F → List F
  ifft : List F → List F
  coset_fft : List F → List F
  coset_ifft : List F → List F

/-- Interface-boundary model of `ProverKey`: the five gate widgets and the
permutation widget as opaque per-index evaluators (their arities match the
call sites in `quotient_poly.rs` exactly), plus the vanishing polynomial's
coset evaluations `v_h_coset_4n`. -/
structure ProverKey (F : Type) where
  arithmetic_compute_quotient_i : ℕ → F → F → F → F → F
  range_compute_quotient_i : ℕ → F → F → F → F → F → F → F
  logic_compute_quotient_i : ℕ → F → F → F → F → F → F → F → F → F
  fixed_base_compute_quotient_i : ℕ → F → F → F → F → F → F → F → F → F
  variable_base_compute_quotient_i : ℕ → F → F → F → F → F → F → F → F → F
  permutation_compute_quotient_i :
    ℕ → F → F → F → F → F → F → F → F → F → F → F
  v_h_coset_4n : List F

variable {F : Type} [Field F] [DecidableEq F]

/-- One `v.push(v[i])` step: append the element at index `i` of the current
vector to its end (`quotient_poly.rs`, lines 41–44, 48–51, 53–56, 60–63). -/
def push_index (v : List F) (i : ℕ) : List F :=
  v ++ [v.getD i 0]

/-- The four consecutive `push(v[0]); push(v[1]); push(v[2]); push(v[3])`
statements applied to an evaluation vector. -/
def extend4 (v : List F) : List F :=
  push_index (push_index (push_index (push_index v 0) 1) 2) 3

/-- `z_eval_4n` as built in `compute` (lines 40–44): coset FFT of the
permutation polynomial, extended by its first four values. -/
def z_eval_4n (domain_4n : EvaluationDomain F) (z_poly : List F) : List F :=
  extend4 (domain_4n.coset_fft z_poly)

/-- `wl_eval_4n` as built in `compute` (lines 47–51). -/
def wl_eval_4n (domain_4n : EvaluationDomain F) (w_l_poly : List F) : List F :=
  extend4 (domain_4n.coset_fft w_l_poly)

/-- `wr_eval_4n` as built in `compute` (lines 52–56). -/
def wr_eval_4n (domain_4n : EvaluationDomain F) (w_r_poly : List F) : List F :=
  extend4 (domain_4n.coset_fft w_r_poly)

/-- `wo_eval_4n` as built in `compute` (line 57): the coset FFT of the
output-wire polynomial.  Unlike the other four vectors it is *not* extended
by its first four values in the source. -/
def wo_eval_4n (domain_4n : EvaluationDomain F) (w_o_poly : List F) : List F :=
  domain_4n.coset_fft w_o_poly

/-- `w4_eval_4n` as built in `compute` (lines 59–63). -/
def w4_eval_4n (domain_4n : EvaluationDomain F) (w_4_poly : List F) : List F :=
  extend4 (domain_4n.coset_fft w_4_poly)

/-- Body of the per-index closure of
`compute_circuit_satisfiability_equation` (lines 128–186): the five widget
contributions `a`…`e` plus the public-input evaluation, combined as
`(a + pi) + b + c + d + e`. -/
def csat_term (prover_key : ProverKey F)
    (range_challenge logic_challenge fixed_base_challenge var_base_challenge : F)
    (wl_eval_4n wr_eval_4n wo_eval_4n w4_eval_4n pi_eval_4n : List F)
    (i : ℕ) : F :=
  let wl := wl_eval_4n.getD i 0
  let wr := wr_eval_4n.getD i 0
  let wo := wo_eval_4n.getD i 0
  let w4 := w4_eval_4n.getD i 0
  let wl_next := wl_eval_4n.getD (i + 4) 0
  let wr_next := wr_eval_4n.getD (i + 4) 0
  let w4_next := w4_eval_4n.getD (i + 4) 0
  let pi := pi_eval_4n.getD i 0
  let a := prover_key.arithmetic_compute_quotient_i i wl wr wo w4
  let b := prover_key.range_compute_quotient_i i range_challenge wl wr wo w4 w4_next
  let c := prover_key.logic_compute_quotient_i i logic_challenge
    wl wl_next wr wr_next wo w4 w4_next
  let d := prover_key.fixed_base_compute_quotient_i i fixed_base_challenge
    wl wl_next wr wr_next wo w4 w4_next
  let e := prover_key.variable_base_compute_quotient_i i var_base_challenge
    wl wl_next wr wr_next wo w4 w4_next
  (a + pi) + b + c + d + e

/-- `compute_circuit_satisfiability_equation` (lines 106–190).  The source
rebuilds the 4n domain with `EvaluationDomain::new(4 * domain.size()).unwrap()`;
a failing construction is a panic, modelled as `none`. -/
def compute_circuit_satisfiability_equation
    (new : ℕ → Except Error (EvaluationDomain F))
    (domain : EvaluationDomain F)
    (range_challenge logic_challenge fixed_base_challenge var_base_challenge : F)
    (prover_key : ProverKey F)
    (wl_eval_4n wr_eval_4n wo_eval_4n w4_eval_4n : List F)
    (pi_poly : List F) : Option (List F) :=
  match new (4 * domain.size) with
  | .error _ => none
  | .ok domain_4n =>
    let pi_eval_4n := domain_4n.coset_fft pi_poly
    some ((List.range domain_4n.size).map
      (csat_term prover_key range_challenge logic_challenge
        fixed_base_challenge var_base_challenge
        wl_eval_4n wr_eval_4n wo_eval_4n w4_eval_4n pi_eval_4n))

/-- `compute_first_lagrange_poly_scaled` (lines 229–237): an all-zero
length-n buffer with `scale` written at evaluation index 0, inverse
transformed in place; `Polynomial::from_coefficients_vec` is the identity
on the coefficient list. -/
def compute_first_lagrange_poly_scaled (domain : EvaluationDomain F)
    (scale : F) : List F :=
  let x_evals := (List.replicate domain.size (0 : F)).set 0 scale
  domain.ifft x_evals

/-- Body of the per-index closure of `compute_permutation_checks`
(lines 211–225): one call of the permutation widget. -/
def perm_term (prover_key : ProverKey F) (alpha beta gamma : F)
    (wl_eval_4n wr_eval_4n wo_eval_4n w4_eval_4n z_eval_4n
      l1_alpha_sq_evals : List F) (i : ℕ) : F :=
  prover_key.permutation_compute_quotient_i i
    (wl_eval_4n.getD i 0) (wr_eval_4n.getD i 0)
    (wo_eval_4n.getD i 0) (w4_eval_4n.getD i 0)
    (z_eval_4n.getD i 0) (z_eval_4n.getD (i + 4) 0)
    alpha (l1_alpha_sq_evals.getD i 0) beta gamma

/-- `compute_permutation_checks` (lines 192–228); the first-Lagrange
polynomial is scaled by `alpha.square()`. -/
def compute_permutation_checks
    (new : ℕ → Except Error (EvaluationDomain F))
    (domain : EvaluationDomain F)
    (prover_key : ProverKey F)
    (wl_eval_4n wr_eval_4n wo_eval_4n w4_eval_4n z_eval_4n : List F)
    (alpha beta gamma : F) : Option (List F) :=
  match new (4 * domain.size) with
  | .error _ => none
  | .ok domain_4n =>
    let l1_poly_alpha :=
      compute_first_lagrange_poly_scaled domain (alpha * alpha)
    let l1_alpha_sq_evals := domain_4n.coset_fft l1_poly_alpha
    some ((List.range domain_4n.size).map
      (perm_term prover_key alpha beta gamma
        wl_eval_4n wr_eval_4n wo_eval_4n w4_eval_4n z_eval_4n
        l1_alpha_sq_evals))

/-- Field inversion as the arkworks interface exposes it: `None` on zero,
`Some` of the inverse otherwise. -/
def invert (x : F) : Option F :=
  if x = 0 then none else some x⁻¹

/-- One index of the quotient loop (lines 93–97):
`(t_1[i] + t_2[i]) * v_h_coset_4n[i].invert()`; the source then `unwrap`s. -/
def quotient_term (t_1 t_2 v_h : List F) (i : ℕ) : Option F :=
  (invert (v_h.getD i 0)).map
    (fun d => (t_1.getD i 0 + t_2.getD i 0) * d)

/-- Sequentially collect `f 0, f 1, …, f (n-1)`, crashing (`none`) as soon
as one element is a panic — the `map(...).collect()` of lines 92–98 with
the `unwrap` inside the closure. -/
def try_collect (f : ℕ → Option F) : ℕ → Option (List F)
  | 0 => some []
  | n + 1 =>
    match try_collect f n, f n with
    | some l, some x => some (l ++ [x])
    | _, _ => none

/-- `compute` (lines 17–103), the quotient-polynomial computation.  `new`
is the external `EvaluationDomain::new`; the `?` on line 39 becomes the
`.error` branch, while the `unwrap`s inside the helpers and the quotient
loop become `panicked`. -/
def compute
    (new : ℕ → Except Error (EvaluationDomain F))
    (domain : EvaluationDomain F)
    (prover_key : ProverKey F)
    (z_poly w_l_poly w_r_poly w_o_poly w_4_poly public_inputs_poly : List F)
    (alpha beta gamma range_challenge logic_challenge fixed_base_challenge
      var_base_challenge : F) : Outcome (List F) :=
  match new (4 * domain.size) with
  | .error e => .err e
  | .ok domain_4n =>
    let z_e := z_eval_4n domain_4n z_poly
    let wl_e := wl_eval_4n domain_4n w_l_poly
    let wr_e := wr_eval_4n domain_4n w_r_poly
    let wo_e := wo_eval_4n domain_4n w_o_poly
    let w4_e := w4_eval_4n domain_4n w_4_poly
    match compute_circuit_satisfiability_equation new domain
        range_challenge logic_challenge fixed_base_challenge
        var_base_challenge prover_key wl_e wr_e wo_e w4_e
        public_inputs_poly with
    | none => .panicked
    | some t_1 =>
      match compute_permutation_checks new domain prover_key
          wl_e wr_e wo_e w4_e z_e alpha beta gamma with
      | none => .panicked
      | some t_2 =>
        match try_collect
            (quotient_term t_1 t_2 prover_key.v_h_coset_4n)
            domain_4n.size with
        | none => .panicked
        | some quotient => .ok (domain_4n.coset_ifft quotient)

/-! ## Verifier (`src/proof_system/verifier.rs`)

The collaborating types (`merlin::Transcript`, `StandardComposer`,
`VerifierKey`, the opening/committer keys and `Proof`) are external to the
embedded file; they are modelled as opaque carriers, and the two external
calls (`self.cs.preprocess_verifier(...)`, `proof.verify(...)`) are passed
in as functions.  Rust mutation through `&mut self` is modelled by state
passing: each method returns its result together with the `Verifier` value
it leaves behind (a `&self` method necessarily leaves the input value). -/

/-- Opaque model of `merlin::Transcript`; `clone` of a pure value is the
value itself. -/
structure Transcript where
  log : List ℕ
  deriving DecidableEq, Repr

/-- Opaque model of the circuit descriptor `StandardComposer`. -/
structure StandardComposer where
  descr : ℕ
  deriving DecidableEq, Repr

/-- Opaque model of the widget `VerifierKey`. -/
structure VerifierKey where
  key : ℕ
  deriving DecidableEq, Repr

/-- Opaque model of the polynomial-commitment `CommitterKey`. -/
structure CommitterKey where
  key : ℕ
  deriving DecidableEq, Repr

/-- Opaque model of the polynomial-commitment opening `VerifierKey`
(imported in the source as `OpeningKey`). -/
structure OpeningKey where
  key : ℕ
  deriving DecidableEq, Repr

/-- Opaque model of a PLONK `Proof`. -/
structure Proof where
  data : ℕ
  deriving DecidableEq, Repr

/-- The `Verifier` struct (verifier.rs, lines 18–29): an optional verifier
key, the composer `cs`, and the preprocessed transcript. -/
structure Verifier where
  verifier_key : Option VerifierKey
  cs : StandardComposer
  preprocessed_transcript : Transcript
  deriving DecidableEq, Repr

/-- `Verifier::new` (lines 39–45): no key, fresh composer, fresh
transcript. -/
def Verifier.new (label : ℕ) : Verifier :=
  { verifier_key := none
    cs := { descr := 0 }
    preprocessed_transcript := { log := [label] } }

/-- `Verifier::preprocess` (lines 69–80).  `preprocess_verifier` is the
external `self.cs.preprocess_verifier(commit_key, &mut transcript)`; since
it receives `&mut` access to the composer's surroundings it returns,
besides its `Result`, the composer and transcript it leaves behind (also on
error, matching `?`-propagation after partial mutation).  On success the
key is stored; on error it is left untouched. -/
def Verifier.preprocess (v : Verifier)
    (preprocess_verifier :
      StandardComposer → CommitterKey → Transcript →
        Except Error VerifierKey × StandardComposer × Transcript)
    (commit_key : CommitterKey) : Except Error Unit × Verifier :=
  match preprocess_verifier v.cs commit_key v.preprocessed_transcript with
  | (.error e, c, t) =>
    (.error e, { v with cs := c, preprocessed_transcript := t })
  | (.ok vk, c, t) =>
    (.ok (), { v with verifier_key := some vk, cs := c,
                      preprocessed_transcript := t })

/-- `Verifier::verify` (lines 89–104).  The method takes `&self`: it clones
the preprocessed transcript into `cloned_transcript`, `unwrap`s the
verifier key (a panic when the key is `None`), and delegates to the
external `proof.verify(...)`, which may mutate only the clone (returned
and discarded here).  The `Verifier` value left behind is returned
explicitly to state frame properties. -/
def Verifier.verify {F : Type} (v : Verifier)
    (proof_verify :
      Proof → VerifierKey → Transcript → OpeningKey → List F →
        Except Error Unit × Transcript)
    (proof : Proof) (opening_key : OpeningKey)
    (public_inputs : List F) : Outcome Unit × Verifier :=
  let cloned_transcript := v.preprocessed_transcript
  match v.verifier_key with
  | none => (.panicked, v)
  | some verifier_key =>
    match proof_verify proof verifier_key cloned_transcript opening_key
        public_inputs with
    | (.ok u, _) => (.ok u, v)
    | (.error e, _) => (.err e, v)

/-! ## Concrete instances used to evaluate the definitions

A small concrete world over `ZMod 5` (a prime field with decidable
equality): a size-1 base domain whose 4n extension has size 4, with the
identity as every transform (a legitimate instance of the external
interface — the round-trip contract holds trivially), a constructor that
only accepts size 4, and prover keys with simple widgets. -/

instance fact_prime_five : Fact (Nat.Prime 5) := ⟨by norm_num⟩

/-- A size-4 evaluation domain over `ZMod 5` whose transforms are the
identity. -/
def exDomain4 : EvaluationDomain (ZMod 5) :=
  { size := 4, fft := fun v => v, ifft := fun v => v,
    coset_fft := fun v => v, coset_ifft := fun v => v }

/-- A size-1 base domain over `ZMod 5`. -/
def exDomain1 : EvaluationDomain (ZMod 5) :=
  { size := 1, fft := fun v => v, ifft := fun v => v,
    coset_fft := fun v => v, coset_ifft := fun v => v }

/-- A size-2 domain over `ZMod 5` (used for the Lagrange-helper witness). -/
def exDomain2 : EvaluationDomain (ZMod 5) :=
  { size := 2, fft := fun v => v, ifft := fun v => v,
    coset_fft := fun v => v, coset_ifft := fun v => v }

/-- A concrete `EvaluationDomain::new`: size 4 is constructible (giving
`exDomain4`), everything else fails with `InvalidDomainSize`. -/
def exNew (m : ℕ) : Except Error (EvaluationDomain (ZMod 5)) :=
  if m = 4 then .ok exDomain4 else .error .InvalidDomainSize

/-- A concrete prover key with simple nontrivial widgets and an everywhere
nonzero vanishing-polynomial coset evaluation. -/
def exProverKey : ProverKey (ZMod 5) :=
  { arithmetic_compute_quotient_i := fun _ wl wr wo w4 => wl * wr + wo + w4
    range_compute_quotient_i := fun _ ch wl _ _ w4 w4n => ch * (wl + w4 + w4n)
    logic_compute_quotient_i :=
      fun _ ch wl wln wr wrn wo w4 w4n => ch * (wl + wln + wr + wrn + wo + w4 + w4n)
    fixed_base_compute_quotient_i :=
      fun _ ch wl wln wr wrn wo w4 w4n => ch * (wl * wln + wr * wrn + wo + w4 * w4n)
    variable_base_compute_quotient_i :=
      fun _ ch wl wln wr wrn wo w4 w4n => ch * (wl + wln * wr + wrn * wo + w4 + w4n)
    permutation_compute_quotient_i :=
      fun _ wl wr wo w4 z zn alpha l1 beta gamma =>
        alpha * (wl + wr + wo + w4) * z + zn * beta + gamma + l1
    v_h_coset_4n := [1, 2, 3, 4] }

/-- The same prover key but with a zero among the vanishing-polynomial
coset evaluations (the failing input for the quotient division). -/
def exProverKeyZeroVH : ProverKey (ZMod 5) :=
  { exProverKey with v_h_coset_4n := [0, 1, 1, 1] }

/-- A `Verifier` in the `Unprocessed` state (`verifier_key` absent). -/
def exUnprocessedVerifier : Verifier :=
  { verifier_key := none
    cs := { descr := 7 }
    preprocessed_transcript := { log := [1, 2] } }

/-- A `Verifier` in the `Ready` state. -/
def exReadyVerifier : Verifier :=
  { verifier_key := some { key := 9 }
    cs := { descr := 7 }
    preprocessed_transcript := { log := [1, 2] } }

/-- A concrete external `proof.verify` that accepts, appending to the
working transcript it was given. -/
def exProofVerifyOk :
    Proof → VerifierKey → Transcript → OpeningKey → List (ZMod 5) →
      Except Error Unit × Transcript :=
  fun _ _ t _ _ => (.ok (), { log := t.log ++ [99] })

/-- A concrete external `cs.preprocess_verifier` that succeeds, mutating
the transcript and composer. -/
def exPreprocessOk :
    StandardComposer → CommitterKey → Transcript →
      Except Error VerifierKey × StandardComposer × Transcript :=
  fun c _ t => (.ok { key := 3 }, { descr := c.descr + 1 },
    { log := t.log ++ [5] })

/-- A concrete external `cs.preprocess_verifier` that fails after having
mutated the transcript. -/
def exPreprocessErr :
    StandardComposer → CommitterKey → Transcript →
      Except Error VerifierKey × StandardComposer × Transcript :=
  fun c _ t => (.error .ProofVerificationFailed, c, { log := t.log ++ [6] })

/-! ## Helper lemmas -/

theorem extend4_eq (v : List F) (h : 4 ≤ v.length) :
    extend4 v = v ++ v.take 4 := by
  rcases v with _ | ⟨a, v⟩
  · simp at h
  rcases v with _ | ⟨b, v⟩
  · simp at h
  rcases v with _ | ⟨c, v⟩
  · simp at h
  rcases v with _ | ⟨d, v⟩
  · simp at h
  simp [extend4, push_index]

theorem extend4_length (v : List F) (h : 4 ≤ v.length) :
    (extend4 v).length = v.length + 4 := by
  rw [extend4_eq v h]
  simp [List.length_take]
  omega

theorem extend4_getD_lt (v : List F) (h : 4 ≤ v.length) (i : ℕ)
    (hi : i < v.length) : (extend4 v).getD i 0 = v.getD i 0 := by
  rw [extend4_eq v h]
  exact List.getD_append _ _ _ _ hi

theorem extend4_getD_wrap (v : List F) (h : 4 ≤ v.length) (k : ℕ)
    (hk : k < 4) : (extend4 v).getD (v.length + k) 0 = v.getD k 0 := by
  rw [extend4_eq v h,
    List.getD_append_right _ _ _ _ (Nat.le_add_right _ _),
    Nat.add_sub_cancel_left]
  have hlt : k < (v.take 4).length := by
    simp [List.length_take]
    omega
  have hkv : k < v.length := by omega
  rw [List.getD_eq_getElem _ _ hlt, List.getD_eq_getElem _ _ hkv]
  simp [List.getElem_take]

theorem range_map_getD (f : ℕ → F) (n i : ℕ) (hi : i < n) :
    ((List.range n).map f).getD i 0 = f i := by
  have hlen : i < ((List.range n).map f).length := by simp [hi]
  rw [List.getD_eq_getElem _ _ hlen]
  simp

theorem invert_of_ne_zero (x : F) (hx : x ≠ 0) : invert x = some x⁻¹ := by
  simp [invert, hx]

theorem try_collect_eq_map (f : ℕ → Option F) (g : ℕ → F) (n : ℕ)
    (h : ∀ i < n, f i = some (g i)) :
    try_collect f n = some ((List.range n).map g) := by
  induction n with
  | zero => simp [try_collect]
  | succ n ih =>
    have h1 := ih fun i hi => h i (Nat.lt_succ_of_lt hi)
    have h2 := h n (Nat.lt_succ_self n)
    simp [try_collect, h1, h2, List.range_succ]

/-! ## Claim theorems -/

/-- Claim C7: if an evaluation domain of size `4 * domain.size()` is not
constructible — the external constructor rejects that size with the
invalid-domain-size error — then `compute` returns that error to the
caller (a returned `err`, not a panic or assertion). -/
theorem compute_returns_invalid_domain_size
    (new : ℕ → Except Error (EvaluationDomain F))
    (domain : EvaluationDomain F) (prover_key : ProverKey F)
    (z_poly w_l_poly w_r_poly w_o_poly w_4_poly public_inputs_poly : List F)
    (alpha beta gamma rc lc fbc vbc : F)
    (h : new (4 * domain.size) = .error .InvalidDomainSize) :
    compute new domain prover_key z_poly w_l_poly w_r_poly w_o_poly w_4_poly
      public_inputs_poly alpha beta gamma rc lc fbc vbc
      = .err .InvalidDomainSize := by
  simp [compute, h]

/-- Witness for C7: a size-2 base domain asks for a size-8 coset domain,
which the concrete constructor rejects; `compute` returns the error. -/
theorem compute_returns_invalid_domain_size_witness :
    compute exNew exDomain2 exProverKey [1] [1] [1] [1] [1] [1]
      1 1 1 1 1 1 1 = .err .InvalidDomainSize :=
  compute_returns_invalid_domain_size exNew exDomain2 exProverKey
    [1] [1] [1] [1] [1] [1] 1 1 1 1 1 1 1 rfl

/-- Claim C3 (code bug): when the vanishing-polynomial coset evaluation is
zero at some index, `compute` does not surface a `ZeroInversion` error as
the specification requires — the `unwrap` on line 96 of
`quotient_poly.rs` makes it panic.  Evaluated at a concrete input whose
`v_h_coset_4n` starts with 0. -/
theorem compute_panics_on_zero_vanishing_eval :
    compute exNew exDomain1 exProverKeyZeroVH
      [1, 2, 3, 4] [1, 0, 2, 1] [0, 1, 1, 2] [3, 1, 4, 1] [2, 2, 0, 1]
      [1, 1, 1, 1] 1 2 3 1 2 3 4 = .panicked ∧
    compute exNew exDomain1 exProverKeyZeroVH
      [1, 2, 3, 4] [1, 0, 2, 1] [0, 1, 1, 2] [3, 1, 4, 1] [2, 2, 0, 1]
      [1, 1, 1, 1] 1 2 3 1 2 3 4 ≠ .err .ZeroInversion := by
  decide

/-- Claim C4 (code bug): calling `verify` on an `Unprocessed` verifier does
not return the checked `VerifierNotPreprocessed` error the specification
requires — `self.verifier_key.as_ref().unwrap()` on line 96 of
`verifier.rs` panics. -/
theorem verify_unprocessed_panics :
    (exUnprocessedVerifier.verify exProofVerifyOk { data := 0 } { key := 0 }
      ([] : List (ZMod 5))).1 = .panicked ∧
    (exUnprocessedVerifier.verify exProofVerifyOk { data := 0 } { key := 0 }
      ([] : List (ZMod 5))).1 ≠ .err .VerifierNotPreprocessed := by
  decide

/-- Claim C5: on a `Ready` verifier, `verify` only works on a cloned copy
of the preprocessed transcript and leaves the verifier's stored state
(key, composer, transcript) unchanged, so running `verify` again on the
state left behind by a first call yields the same answer. -/
theorem verify_frame (v : Verifier)
    (proof_verify :
      Proof → VerifierKey → Transcript → OpeningKey → List F →
        Except Error Unit × Transcript)
    (proof : Proof) (opening_key : OpeningKey) (public_inputs : List F)
    (vk : VerifierKey) (h : v.verifier_key = some vk) :
    (v.verify proof_verify proof opening_key public_inputs).2 = v ∧
    Verifier.verify (v.verify proof_verify proof opening_key public_inputs).2
        proof_verify proof opening_key public_inputs
      = v.verify proof_verify proof opening_key public_inputs := by
  have h2 : (v.verify proof_verify proof opening_key public_inputs).2 = v := by
    simp only [Verifier.verify, h]
    split <;> rfl
  exact ⟨h2, by rw [h2]⟩

/-- Witness for C5: a concrete `Ready` verifier is left intact by `verify`
and a repeated call agrees with the first. -/
theorem verify_frame_witness :
    (exReadyVerifier.verify exProofVerifyOk { data := 0 } { key := 0 }
      ([] : List (ZMod 5))).2 = exReadyVerifier ∧
    Verifier.verify (exReadyVerifier.verify exProofVerifyOk { data := 0 }
        { key := 0 } ([] : List (ZMod 5))).2 exProofVerifyOk { data := 0 }
        { key := 0 } ([] : List (ZMod 5))
      = exReadyVerifier.verify exProofVerifyOk { data := 0 } { key := 0 }
        ([] : List (ZMod 5)) :=
  verify_frame exReadyVerifier exProofVerifyOk { data := 0 } { key := 0 }
    [] { key := 9 } rfl

/-- Claim C9: if the underlying circuit-descriptor preprocessing fails,
`preprocess` propagates the error and leaves `verifier_key` untouched (an
`Unprocessed` verifier stays `Unprocessed`); on success it stores the
derived key, moving the verifier to `Ready`. -/
theorem preprocess_state_transition (v : Verifier)
    (preprocess_verifier :
      StandardComposer → CommitterKey → Transcript →
        Except Error VerifierKey × StandardComposer × Transcript)
    (commit_key : CommitterKey)
    (r : Except Error VerifierKey) (c : StandardComposer) (t : Transcript)
    (hpv : preprocess_verifier v.cs commit_key v.preprocessed_transcript
      = (r, c, t)) :
    (∀ e, r = .error e →
      (v.preprocess preprocess_verifier commit_key).1 = .error e ∧
      (v.preprocess preprocess_verifier commit_key).2.verifier_key
        = v.verifier_key) ∧
    (∀ vk, r = .ok vk →
      (v.preprocess preprocess_verifier commit_key).1 = .ok () ∧
      (v.preprocess preprocess_verifier commit_key).2.verifier_key
        = some vk) := by
  constructor
  · rintro e rfl
    simp [Verifier.preprocess, hpv]
  · rintro vk rfl
    simp [Verifier.preprocess, hpv]

/-- Witness for C9: a failing preprocessing leaves the concrete
`Unprocessed` verifier without a key and propagates the error, while a
succeeding one stores the key. -/
theorem preprocess_state_transition_witness :
    ((exUnprocessedVerifier.preprocess exPreprocessErr { key := 0 }).1
        = .error .ProofVerificationFailed ∧
      (exUnprocessedVerifier.preprocess exPreprocessErr
        { key := 0 }).2.verifier_key = exUnprocessedVerifier.verifier_key) ∧
    ((exUnprocessedVerifier.preprocess exPreprocessOk { key := 0 }).1
        = .ok () ∧
      (exUnprocessedVerifier.preprocess exPreprocessOk
        { key := 0 }).2.verifier_key = some { key := 3 }) :=
  ⟨(preprocess_state_transition exUnprocessedVerifier exPreprocessErr
      { key := 0 } (.error .ProofVerificationFailed) exUnprocessedVerifier.cs
      { log := exUnprocessedVerifier.preprocessed_transcript.log ++ [6] }
      rfl).1 .ProofVerificationFailed rfl,
    (preprocess_state_transition exUnprocessedVerifier exPreprocessOk
      { key := 0 } (.ok { key := 3 })
      { descr := exUnprocessedVerifier.cs.descr + 1 }
      { log := exUnprocessedVerifier.preprocessed_transcript.log ++ [5] }
      rfl).2 { key := 3 } rfl⟩

/-- Counterexample to claim C2: the claim says all five evaluation vectors
(z, wL, wR, wO, w4) are extended to length 4n+4, but `compute` never
extends the output-wire vector (line 57 of `quotient_poly.rs`): at a
concrete input with 4n = 4, `wo_eval_4n` has length 4, not 4 + 4. -/
theorem wo_eval_4n_not_extended :
    (wo_eval_4n exDomain4 [1, 2, 3, 4]).length = 4 ∧
    ¬ (wo_eval_4n exDomain4 [1, 2, 3, 4]).length = exDomain4.size + 4 := by
  decide

/-- Claim C2 as amended: in `compute`, the permutation vector and the
wL, wR, w4 wire vectors are each extended by appending their own first 4
values (length 4n+4, wrap-around at the end), but the wO vector is left as
the bare 4n coset evaluation, unextended. -/
theorem eval_4n_extension (d4 : EvaluationDomain F)
    (z_poly w_l_poly w_r_poly w_o_poly w_4_poly : List F)
    (h4n : 4 ≤ d4.size)
    (hz : (d4.coset_fft z_poly).length = d4.size)
    (hl : (d4.coset_fft w_l_poly).length = d4.size)
    (hr : (d4.coset_fft w_r_poly).length = d4.size)
    (h4 : (d4.coset_fft w_4_poly).length = d4.size) :
    ((z_eval_4n d4 z_poly).length = d4.size + 4 ∧
      ∀ k < 4, (z_eval_4n d4 z_poly).getD (d4.size + k) 0
        = (z_eval_4n d4 z_poly).getD k 0) ∧
    ((wl_eval_4n d4 w_l_poly).length = d4.size + 4 ∧
      ∀ k < 4, (wl_eval_4n d4 w_l_poly).getD (d4.size + k) 0
        = (wl_eval_4n d4 w_l_poly).getD k 0) ∧
    ((wr_eval_4n d4 w_r_poly).length = d4.size + 4 ∧
      ∀ k < 4, (wr_eval_4n d4 w_r_poly).getD (d4.size + k) 0
        = (wr_eval_4n d4 w_r_poly).getD k 0) ∧
    ((w4_eval_4n d4 w_4_poly).length = d4.size + 4 ∧
      ∀ k < 4, (w4_eval_4n d4 w_4_poly).getD (d4.size + k) 0
        = (w4_eval_4n d4 w_4_poly).getD k 0) ∧
    (wo_eval_4n d4 w_o_poly = d4.coset_fft w_o_poly ∧
      (d4.coset_fft w_o_poly).length = d4.size →
      (wo_eval_4n d4 w_o_poly).length = d4.size) := by
  have main : ∀ p : List F, (d4.coset_fft p).length = d4.size →
      (extend4 (d4.coset_fft p)).length = d4.size + 4 ∧
      ∀ k < 4, (extend4 (d4.coset_fft p)).getD (d4.size + k) 0
        = (extend4 (d4.coset_fft p)).getD k 0 := by
    intro p hp
    have hge : 4 ≤ (d4.coset_fft p).length := by omega
    refine ⟨by rw [extend4_length _ hge, hp], fun k hk => ?_⟩
    rw [← hp, extend4_getD_wrap _ hge k hk,
      extend4_getD_lt _ hge k (by omega)]
  exact ⟨main z_poly hz, main w_l_poly hl, main w_r_poly hr,
    main w_4_poly h4, fun h => h.2⟩

/-- Witness for the amended C2: at a concrete input with 4n = 4, the four
extended vectors have length 8 with wrap-around and the wO vector keeps
length 4. -/
theorem eval_4n_extension_witness :
    (((z_eval_4n exDomain4 [1, 2, 3, 4]).length = exDomain4.size + 4 ∧
      ∀ k < 4, (z_eval_4n exDomain4 [1, 2, 3, 4]).getD (exDomain4.size + k) 0
        = (z_eval_4n exDomain4 [1, 2, 3, 4]).getD k 0) ∧
    ((wl_eval_4n exDomain4 [1, 0, 2, 1]).length = exDomain4.size + 4 ∧
      ∀ k < 4, (wl_eval_4n exDomain4 [1, 0, 2, 1]).getD (exDomain4.size + k) 0
        = (wl_eval_4n exDomain4 [1, 0, 2, 1]).getD k 0) ∧
    ((wr_eval_4n exDomain4 [0, 1, 1, 2]).length = exDomain4.size + 4 ∧
      ∀ k < 4, (wr_eval_4n exDomain4 [0, 1, 1, 2]).getD (exDomain4.size + k) 0
        = (wr_eval_4n exDomain4 [0, 1, 1, 2]).getD k 0) ∧
    ((w4_eval_4n exDomain4 [2, 2, 0, 1]).length = exDomain4.size + 4 ∧
      ∀ k < 4, (w4_eval_4n exDomain4 [2, 2, 0, 1]).getD (exDomain4.size + k) 0
        = (w4_eval_4n exDomain4 [2, 2, 0, 1]).getD k 0) ∧
    (wo_eval_4n exDomain4 [3, 1, 4, 1] = exDomain4.coset_fft [3, 1, 4, 1] ∧
      (exDomain4.coset_fft [3, 1, 4, 1]).length = exDomain4.size →
      (wo_eval_4n exDomain4 [3, 1, 4, 1]).length = exDomain4.size)) :=
  eval_4n_extension exDomain4 [1, 2, 3, 4] [1, 0, 2, 1] [0, 1, 1, 2]
    [3, 1, 4, 1] [2, 2, 0, 1] (by decide) (by decide) (by decide) (by decide)
    (by decide)

/-- Claim C6: each entry of `t_1` is the five-term sum
`(arithmetic + publicInput) + range + logic + fixedBase + varBase`, where
the arithmetic widget receives no challenge and each other widget receives
exactly its own challenge. -/
theorem csat_five_term_structure
    (new : ℕ → Except Error (EvaluationDomain F))
    (domain d4 : EvaluationDomain F)
    (rc lc fbc vbc : F) (prover_key : ProverKey F)
    (wlE wrE woE w4E pi_poly : List F)
    (hnew : new (4 * domain.size) = .ok d4) :
    ∃ t_1 : List F,
      compute_circuit_satisfiability_equation new domain rc lc fbc vbc
        prover_key wlE wrE woE w4E pi_poly = some t_1 ∧
      t_1.length = d4.size ∧
      ∀ i < d4.size,
        t_1.getD i 0 =
          (prover_key.arithmetic_compute_quotient_i i (wlE.getD i 0)
              (wrE.getD i 0) (woE.getD i 0) (w4E.getD i 0)
            + (d4.coset_fft pi_poly).getD i 0)
          + prover_key.range_compute_quotient_i i rc (wlE.getD i 0)
              (wrE.getD i 0) (woE.getD i 0) (w4E.getD i 0)
              (w4E.getD (i + 4) 0)
          + prover_key.logic_compute_quotient_i i lc (wlE.getD i 0)
              (wlE.getD (i + 4) 0) (wrE.getD i 0) (wrE.getD (i + 4) 0)
              (woE.getD i 0) (w4E.getD i 0) (w4E.getD (i + 4) 0)
          + prover_key.fixed_base_compute_quotient_i i fbc (wlE.getD i 0)
              (wlE.getD (i + 4) 0) (wrE.getD i 0) (wrE.getD (i + 4) 0)
              (woE.getD i 0) (w4E.getD i 0) (w4E.getD (i + 4) 0)
          + prover_key.variable_base_compute_quotient_i i vbc (wlE.getD i 0)
              (wlE.getD (i + 4) 0) (wrE.getD i 0) (wrE.getD (i + 4) 0)
              (woE.getD i 0) (w4E.getD i 0) (w4E.getD (i + 4) 0) := by
  refine ⟨(List.range d4.size).map
    (csat_term prover_key rc lc fbc vbc wlE wrE woE w4E
      (d4.coset_fft pi_poly)), ?_, by simp, fun i hi => ?_⟩
  · simp [compute_circuit_satisfiability_equation, hnew]
  · rw [range_map_getD _ _ _ hi]
    rfl

/-- Witness for C6: the five-term structure evaluated at a concrete key,
challenges and evaluation vectors. -/
theorem csat_five_term_structure_witness :
    ∃ t_1 : List (ZMod 5),
      compute_circuit_satisfiability_equation exNew exDomain1 1 2 3 4
        exProverKey [1, 0, 2, 1] [0, 1, 1, 2] [3, 1, 4, 1] [2, 2, 0, 1]
        [1, 1, 1, 1] = some t_1 ∧
      t_1.length = exDomain4.size ∧
      ∀ i < exDomain4.size,
        t_1.getD i 0 =
          (exProverKey.arithmetic_compute_quotient_i i
              (List.getD [1, 0, 2, 1] i 0) (List.getD [0, 1, 1, 2] i 0)
              (List.getD [3, 1, 4, 1] i 0) (List.getD [2, 2, 0, 1] i 0)
            + (exDomain4.coset_fft [1, 1, 1, 1]).getD i 0)
          + exProverKey.range_compute_quotient_i i 1
              (List.getD [1, 0, 2, 1] i 0) (List.getD [0, 1, 1, 2] i 0)
              (List.getD [3, 1, 4, 1] i 0) (List.getD [2, 2, 0, 1] i 0)
              (List.getD [2, 2, 0, 1] (i + 4) 0)
          + exProverKey.logic_compute_quotient_i i 2
              (List.getD [1, 0, 2, 1] i 0) (List.getD [1, 0, 2, 1] (i + 4) 0)
              (List.getD [0, 1, 1, 2] i 0) (List.getD [0, 1, 1, 2] (i + 4) 0)
              (List.getD [3, 1, 4, 1] i 0) (List.getD [2, 2, 0, 1] i 0)
              (List.getD [2, 2, 0, 1] (i + 4) 0)
          + exProverKey.fixed_base_compute_quotient_i i 3
              (List.getD [1, 0, 2, 1] i 0) (List.getD [1, 0, 2, 1] (i + 4) 0)
              (List.getD [0, 1, 1, 2] i 0) (List.getD [0, 1, 1, 2] (i + 4) 0)
              (List.getD [3, 1, 4, 1] i 0) (List.getD [2, 2, 0, 1] i 0)
              (List.getD [2, 2, 0, 1] (i + 4) 0)
          + exProverKey.variable_base_compute_quotient_i i 4
              (List.getD [1, 0, 2, 1] i 0) (List.getD [1, 0, 2, 1] (i + 4) 0)
              (List.getD [0, 1, 1, 2] i 0) (List.getD [0, 1, 1, 2] (i + 4) 0)
              (List.getD [3, 1, 4, 1] i 0) (List.getD [2, 2, 0, 1] i 0)
              (List.getD [2, 2, 0, 1] (i + 4) 0) :=
  csat_five_term_structure exNew exDomain1 exDomain4 1 2 3 4 exProverKey
    [1, 0, 2, 1] [0, 1, 1, 2] [3, 1, 4, 1] [2, 2, 0, 1] [1, 1, 1, 1] rfl

/-- Claim C10: with the wire/permutation vectors as `compute` builds them
(lengths 4n+4 for wL, wR, w4, z and 4n for wO, given that the coset
transform returns one evaluation per domain point), every per-index access
of the loops — indices `i` and `i+4` into wL, wR, w4 and z, and index `i`
only into wO — is within bounds for every `i < 4n`. -/
theorem compute_accesses_in_bounds (d4 : EvaluationDomain F)
    (z_poly w_l_poly w_r_poly w_o_poly w_4_poly : List F)
    (h4n : 4 ≤ d4.size)
    (hz : (d4.coset_fft z_poly).length = d4.size)
    (hl : (d4.coset_fft w_l_poly).length = d4.size)
    (hr : (d4.coset_fft w_r_poly).length = d4.size)
    (ho : (d4.coset_fft w_o_poly).length = d4.size)
    (h4 : (d4.coset_fft w_4_poly).length = d4.size) :
    (wl_eval_4n d4 w_l_poly).length = d4.size + 4 ∧
    (wr_eval_4n d4 w_r_poly).length = d4.size + 4 ∧
    (w4_eval_4n d4 w_4_poly).length = d4.size + 4 ∧
    (z_eval_4n d4 z_poly).length = d4.size + 4 ∧
    (wo_eval_4n d4 w_o_poly).length = d4.size ∧
    ∀ i < d4.size,
      i + 4 < (wl_eval_4n d4 w_l_poly).length ∧
      i + 4 < (wr_eval_4n d4 w_r_poly).length ∧
      i + 4 < (w4_eval_4n d4 w_4_poly).length ∧
      i + 4 < (z_eval_4n d4 z_poly).length ∧
      i < (wo_eval_4n d4 w_o_poly).length := by
  have len : ∀ p : List F, (d4.coset_fft p).length = d4.size →
      (extend4 (d4.coset_fft p)).length = d4.size + 4 := by
    intro p hp
    rw [extend4_length _ (by omega), hp]
  have lenl := len w_l_poly hl
  have lenr := len w_r_poly hr
  have len4 := len w_4_poly h4
  have lenz := len z_poly hz
  refine ⟨lenl, lenr, len4, lenz, ho, fun i hi => ?_⟩
  unfold wl_eval_4n wr_eval_4n w4_eval_4n z_eval_4n wo_eval_4n at *
  omega

/-- Witness for C10: the bounds hold at a concrete 4n = 4 instance. -/
theorem compute_accesses_in_bounds_witness :
    (wl_eval_4n exDomain4 [1, 0, 2, 1]).length = exDomain4.size + 4 ∧
    (wr_eval_4n exDomain4 [0, 1, 1, 2]).length = exDomain4.size + 4 ∧
    (w4_eval_4n exDomain4 [2, 2, 0, 1]).length = exDomain4.size + 4 ∧
    (z_eval_4n exDomain4 [1, 2, 3, 4]).length = exDomain4.size + 4 ∧
    (wo_eval_4n exDomain4 [3, 1, 4, 1]).length = exDomain4.size ∧
    ∀ i < exDomain4.size,
      i + 4 < (wl_eval_4n exDomain4 [1, 0, 2, 1]).length ∧
      i + 4 < (wr_eval_4n exDomain4 [0, 1, 1, 2]).length ∧
      i + 4 < (w4_eval_4n exDomain4 [2, 2, 0, 1]).length ∧
      i + 4 < (z_eval_4n exDomain4 [1, 2, 3, 4]).length ∧
      i < (wo_eval_4n exDomain4 [3, 1, 4, 1]).length :=
  compute_accesses_in_bounds exDomain4 [1, 2, 3, 4] [1, 0, 2, 1]
    [0, 1, 1, 2] [3, 1, 4, 1] [2, 2, 0, 1] (by decide) (by decide)
    (by decide) (by decide) (by decide) (by decide)

/-- Claim C8: `compute_first_lagrange_poly_scaled` returns exactly the
inverse transform of the all-zero length-n buffer with `scale` written at
evaluation index 0 (it is a pure function); equivalently, whenever the
external domain satisfies its forward/inverse round-trip contract on that
buffer, the returned polynomial evaluates on the domain to `scale` at the
first point and to 0 at every other point. -/
theorem first_lagrange_poly_scaled_spec (domain : EvaluationDomain F)
    (scale : F) (hn : 0 < domain.size)
    (hrt : domain.fft (domain.ifft
        ((List.replicate domain.size (0 : F)).set 0 scale))
      = (List.replicate domain.size (0 : F)).set 0 scale) :
    compute_first_lagrange_poly_scaled domain scale
      = domain.ifft ((List.replicate domain.size (0 : F)).set 0 scale) ∧
    (domain.fft (compute_first_lagrange_poly_scaled domain scale)).getD 0 0
      = scale ∧
    ∀ i, 0 < i → i < domain.size →
      (domain.fft (compute_first_lagrange_poly_scaled domain scale)).getD i 0
        = 0 := by
  obtain ⟨m, hm⟩ : ∃ m, domain.size = m + 1 := ⟨domain.size - 1, by omega⟩
  have heq : compute_first_lagrange_poly_scaled domain scale
      = domain.ifft ((List.replicate domain.size (0 : F)).set 0 scale) := rfl
  refine ⟨heq, ?_, ?_⟩
  · rw [heq, hrt, hm, List.replicate_succ]
    simp
  · intro i hi0 hin
    rw [heq, hrt, hm, List.replicate_succ]
    obtain ⟨j, rfl⟩ : ∃ j, i = j + 1 := ⟨i - 1, by omega⟩
    have hj : j < m := by omega
    simp only [List.set_cons_zero, List.getD_cons_succ]
    rw [List.getD_eq_getElem _ _ (by simpa using hj)]
    simp

/-- Witness for C8 on a concrete size-2 domain with scale 3. -/
theorem first_lagrange_poly_scaled_spec_witness :
    compute_first_lagrange_poly_scaled exDomain2 3
      = exDomain2.ifft
          ((List.replicate exDomain2.size (0 : ZMod 5)).set 0 3) ∧
    (exDomain2.fft (compute_first_lagrange_poly_scaled exDomain2 3)).getD 0 0
      = 3 ∧
    ∀ i, 0 < i → i < exDomain2.size →
      (exDomain2.fft (compute_first_lagrange_poly_scaled exDomain2 3)).getD
        i 0 = 0 :=
  first_lagrange_poly_scaled_spec exDomain2 3 (by decide) rfl

/-- Claim C1: under the external contracts (the 4n domain is constructed,
the vanishing-polynomial coset evaluations are nonzero, and the coset
transforms round-trip), `compute` succeeds; for every coset index
`i < 4n` the quotient evaluation is `(t_1[i] + t_2[i]) * (v_h[i])⁻¹`, the
returned polynomial is the inverse coset transform of that length-4n
evaluation sequence, and re-evaluating the returned polynomial on the 4n
coset reproduces those values exactly. -/
theorem compute_quotient_division_spec
    (new : ℕ → Except Error (EvaluationDomain F))
    (domain d4 : EvaluationDomain F) (prover_key : ProverKey F)
    (z_poly w_l_poly w_r_poly w_o_poly w_4_poly public_inputs_poly : List F)
    (alpha beta gamma rc lc fbc vbc : F)
    (hnew : new (4 * domain.size) = .ok d4)
    (hvh : ∀ i < d4.size, prover_key.v_h_coset_4n.getD i 0 ≠ 0)
    (hrt : ∀ v : List F, v.length = d4.size →
      d4.coset_fft (d4.coset_ifft v) = v) :
    ∃ t_1 t_2 : List F,
      compute_circuit_satisfiability_equation new domain rc lc fbc vbc
        prover_key (wl_eval_4n d4 w_l_poly) (wr_eval_4n d4 w_r_poly)
        (wo_eval_4n d4 w_o_poly) (w4_eval_4n d4 w_4_poly)
        public_inputs_poly = some t_1 ∧
      compute_permutation_checks new domain prover_key
        (wl_eval_4n d4 w_l_poly) (wr_eval_4n d4 w_r_poly)
        (wo_eval_4n d4 w_o_poly) (w4_eval_4n d4 w_4_poly)
        (z_eval_4n d4 z_poly) alpha beta gamma = some t_2 ∧
      compute new domain prover_key z_poly w_l_poly w_r_poly w_o_poly
        w_4_poly public_inputs_poly alpha beta gamma rc lc fbc vbc
        = .ok (d4.coset_ifft ((List.range d4.size).map (fun i =>
            (t_1.getD i 0 + t_2.getD i 0) *
              (prover_key.v_h_coset_4n.getD i 0)⁻¹))) ∧
      ∀ p : List F,
        compute new domain prover_key z_poly w_l_poly w_r_poly w_o_poly
          w_4_poly public_inputs_poly alpha beta gamma rc lc fbc vbc
          = .ok p →
        ∀ i < d4.size, (d4.coset_fft p).getD i 0
          = (t_1.getD i 0 + t_2.getD i 0) *
            (prover_key.v_h_coset_4n.getD i 0)⁻¹ := by
  obtain ⟨t_1, hcs⟩ :
      ∃ t_1, compute_circuit_satisfiability_equation new domain rc lc fbc
        vbc prover_key (wl_eval_4n d4 w_l_poly) (wr_eval_4n d4 w_r_poly)
        (wo_eval_4n d4 w_o_poly) (w4_eval_4n d4 w_4_poly)
        public_inputs_poly = some t_1 := by
    simp [compute_circuit_satisfiability_equation, hnew]
  obtain ⟨t_2, hpc⟩ :
      ∃ t_2, compute_permutation_checks new domain prover_key
        (wl_eval_4n d4 w_l_poly) (wr_eval_4n d4 w_r_poly)
        (wo_eval_4n d4 w_o_poly) (w4_eval_4n d4 w_4_poly)
        (z_eval_4n d4 z_poly) alpha beta gamma = some t_2 := by
    simp [compute_permutation_checks, hnew]
  have htc : try_collect (quotient_term t_1 t_2 prover_key.v_h_coset_4n)
      d4.size
      = some ((List.range d4.size).map (fun i =>
          (t_1.getD i 0 + t_2.getD i 0) *
            (prover_key.v_h_coset_4n.getD i 0)⁻¹)) :=
    try_collect_eq_map _ _ _ (fun i hi => by
      unfold quotient_term
      rw [invert_of_ne_zero _ (hvh i hi)]
      rfl)
  have hok : compute new domain prover_key z_poly w_l_poly w_r_poly
      w_o_poly w_4_poly public_inputs_poly alpha beta gamma rc lc fbc vbc
      = .ok (d4.coset_ifft ((List.range d4.size).map (fun i =>
          (t_1.getD i 0 + t_2.getD i 0) *
            (prover_key.v_h_coset_4n.getD i 0)⁻¹))) := by
    simp only [compute, hnew, hcs, hpc, htc]
  refine ⟨t_1, t_2, hcs, hpc, hok, ?_⟩
  intro p hp i hi
  rw [hok] at hp
  injection hp with hp
  subst hp
  rw [hrt _ (by simp)]
  exact range_map_getD _ _ _ hi

/-- Witness for C1 at a concrete 4n = 4 instance over `ZMod 5` with an
everywhere-nonzero vanishing evaluation and round-tripping transforms. -/
theorem compute_quotient_division_spec_witness :
    ∃ t_1 t_2 : List (ZMod 5),
      compute_circuit_satisfiability_equation exNew exDomain1 1 2 3 4
        exProverKey (wl_eval_4n exDomain4 [1, 0, 2, 1])
        (wr_eval_4n exDomain4 [0, 1, 1, 2])
        (wo_eval_4n exDomain4 [3, 1, 4, 1])
        (w4_eval_4n exDomain4 [2, 2, 0, 1]) [1, 1, 1, 1] = some t_1 ∧
      compute_permutation_checks exNew exDomain1 exProverKey
        (wl_eval_4n exDomain4 [1, 0, 2, 1])
        (wr_eval_4n exDomain4 [0, 1, 1, 2])
        (wo_eval_4n exDomain4 [3, 1, 4, 1])
        (w4_eval_4n exDomain4 [2, 2, 0, 1])
        (z_eval_4n exDomain4 [1, 2, 3, 4]) 2 3 4 = some t_2 ∧
      compute exNew exDomain1 exProverKey [1, 2, 3, 4] [1, 0, 2, 1]
        [0, 1, 1, 2] [3, 1, 4, 1] [2, 2, 0, 1] [1, 1, 1, 1] 2 3 4 1 2 3 4
        = .ok (exDomain4.coset_ifft ((List.range exDomain4.size).map
            (fun i => (t_1.getD i 0 + t_2.getD i 0) *
              (exProverKey.v_h_coset_4n.getD i 0)⁻¹))) ∧
      ∀ p : List (ZMod 5),
        compute exNew exDomain1 exProverKey [1, 2, 3, 4] [1, 0, 2, 1]
          [0, 1, 1, 2] [3, 1, 4, 1] [2, 2, 0, 1] [1, 1, 1, 1]
          2 3 4 1 2 3 4 = .ok p →
        ∀ i < exDomain4.size, (exDomain4.coset_fft p).getD i 0
          = (t_1.getD i 0 + t_2.getD i 0) *
            (exProverKey.v_h_coset_4n.getD i 0)⁻¹ :=
  compute_quotient_division_spec exNew exDomain1 exDomain4 exProverKey
    [1, 2, 3, 4] [1, 0, 2, 1] [0, 1, 1, 2] [3, 1, 4, 1] [2, 2, 0, 1]
    [1, 1, 1, 1] 2 3 4 1 2 3 4 rfl (by decide) (fun v _ => rfl)

end ArkPlonk
